import Mathlib

/-!
# WorkChain Security Core — verification of the spec against the source

Shallow embedding of the two subsystems of `Ken2shin/WorkChain-ERP`:

* `src/services/c/crypto-core/crypto.c` — the tenant-bound AES-256-GCM
  envelope (`wc_encrypt_aes256gcm` / `wc_decrypt_aes256gcm`);
* `src/services/cpp/threat-engine/ThreatEngine.cpp` — the behavior
  scoring and response mesh (`BehaviorAnalyzer`, `AdaptiveThresholdManager`,
  `RateLimitingPolicy`, `ThreatResponseEngine`, `NanoSecurityMesh`).

Modelling conventions:

* C++ `float`/`double` arithmetic is embedded over `ℚ`.  Every constant in
  the scoring pipeline is an exact decimal, and every comparison settled
  here is far from a representability boundary, so the rational model and
  the float code agree on all booleans proved below.
* The monotonic clock is an explicit `now : Int` parameter, in
  milliseconds; `std::chrono::duration_cast` truncates toward zero, which
  is `Int.tdiv`.
* `std::map` / `std::unordered_map` become association lists with
  first-match lookup (`lookupA`) and insert-or-replace (`insertA`); C++
  `operator[]` default-construction is `Option.getD` with the
  zero-initialized record.
* Stateful methods become explicit state-passing functions; a method that
  only reads under a shared lock becomes a pure function of the state.
-/

namespace WorkChain.Security

/-! ## Association-list primitives (model of `std::map` / `std::unordered_map`) -/

/-- First-match lookup in an association list keyed by strings. -/
def lookupA {α : Type} : List (String × α) → String → Option α
  | [], _ => none
  | (k', v') :: t, k => if k' = k then some v' else lookupA t k

/-- Insert-or-replace in an association list, preserving the position of an
existing key. -/
def insertA {α : Type} : List (String × α) → String → α → List (String × α)
  | [], k, v => [(k, v)]
  | (k', v') :: t, k, v => if k' = k then (k, v) :: t else (k', v') :: insertA t k v

theorem lookupA_insertA_self {α : Type} (m : List (String × α)) (k : String) (v : α) :
    lookupA (insertA m k v) k = some v := by
  induction m with
  | nil => simp [insertA, lookupA]
  | cons hd t ih =>
    obtain ⟨k', v'⟩ := hd
    by_cases h : k' = k
    · simp [insertA, lookupA, h]
    · simp [insertA, lookupA, h, ih]

theorem lookupA_insertA_ne {α : Type} (m : List (String × α)) (k k' : String) (v : α)
    (h : k ≠ k') : lookupA (insertA m k v) k' = lookupA m k' := by
  induction m with
  | nil => simp [insertA, lookupA, h]
  | cons hd t ih =>
    obtain ⟨k0, v0⟩ := hd
    by_cases h0 : k0 = k
    · subst h0
      simp [insertA, lookupA, h]
    · simp only [insertA, if_neg h0]
      by_cases h1 : k0 = k'
      · simp [lookupA, h1]
      · simp [lookupA, h1, ih]

end WorkChain.Security

namespace WorkChain.Crypto

/-! ## Tenant AEAD envelope — `src/services/c/crypto-core/crypto.c`

Byte buffers are `List Nat` (each entry an octet value).  The OpenSSL EVP
AES-256-GCM primitive is external library code, not part of this
repository; it is abstracted as a `GcmModel`: a CTR keystream indexed by
key and IV plus a tag function over key, IV, AAD and ciphertext.  The
repository's own frame layout, length checks, error codes, tag handling
and wipe-on-failure are translated from `crypto.c` verbatim. -/

/-- Error codes of `crypto.h` (`WCCryptoError`). -/
inductive WCCryptoError
  | SUCCESS
  | FAILURE
  | AUTH_FAILED
  | INVALID_INPUT
  | MEMORY_ERROR
  | OVERFLOW
  deriving DecidableEq

/-- The stable integer value of each error code, as fixed in `crypto.h`. -/
def WCCryptoError.code : WCCryptoError → Int
  | .SUCCESS => 0
  | .FAILURE => -1
  | .AUTH_FAILED => -2
  | .INVALID_INPUT => -3
  | .MEMORY_ERROR => -4
  | .OVERFLOW => -5

/-- Byte-wise XOR of two buffers (the CTR-mode combine step). -/
def xorBytes (a b : List Nat) : List Nat := List.zipWith Nat.xor a b

/-- Modelled from the spec: the OpenSSL `EVP_aes_256_gcm` primitive is
external to this repository (only its caller `crypto.c` is in `src/`), so
it is modelled per §4.7 of the spec as an abstract CTR keystream plus a tag
computed over key, IV, AAD and ciphertext.  `keystream k iv n` is the first
`n` keystream bytes under key `k` and IV `iv`; `tagOf k iv aad ct` is the
GCM authentication tag. -/
structure GcmModel where
  keystream : List Nat → List Nat → Nat → List Nat
  tagOf : List Nat → List Nat → List Nat → List Nat → List Nat
  keystream_length : ∀ k iv n, (keystream k iv n).length = n

/-- Modelled from the spec: §4.7 — "passing the wrong `aad` yields
`AUTH_FAILED`, not a silent success" — together with the source comment in
`crypto.c` ("If this doesn't match what was used during encryption,
DecryptFinal will fail").  The GCM tag is modelled as binding the AAD:
distinct AADs give distinct tags under the same key, IV and ciphertext.
(For the concrete 128-bit GHASH this holds except with probability
≤ 2⁻¹²⁸ over the key; the idealization is exactly the contract the
repository code relies on.) -/
structure GcmAuthModel extends GcmModel where
  tag_aad_inj : ∀ k iv a1 a2 c, a1 ≠ a2 → tagOf k iv a1 c ≠ tagOf k iv a2 c

/-- Result of `wc_encrypt_aes256gcm`: error code, the ciphertext frame
written to the output buffer (`IV (12 B) || ct`), the reported
`*ciphertext_len`, and the authentication tag. -/
structure EncryptResult where
  err : WCCryptoError
  ciphertext : List Nat
  ciphertext_len : Nat
  tag : List Nat
  deriving DecidableEq

/-- Result of `wc_decrypt_aes256gcm`: error code, the contents of the
plaintext output buffer on return, and the reported `*plaintext_len`
(left at 0 when the function fails before setting it). -/
structure DecryptResult where
  err : WCCryptoError
  plaintext : List Nat
  plaintext_len : Nat
  deriving DecidableEq

/-- `wc_encrypt_aes256gcm` (`crypto.c:110-187`).  The fresh random IV drawn
from the CSPRNG inside the C function is an explicit `iv` input here (the
RNG is modelled as an oracle supplying it).  Null-pointer checks are
vacuous in the list model; the remaining guards are translated verbatim:
`tag_len < 16` rejects with `INVALID_INPUT`, plaintext over 50 MiB rejects
with `OVERFLOW`.  The frame is `IV || ct` and `*ciphertext_len` is
`12 + |ct|`. -/
def wc_encrypt_aes256gcm (M : GcmModel) (key plaintext aad iv : List Nat)
    (tag_len : Nat) : EncryptResult :=
  if tag_len < 16 then ⟨.INVALID_INPUT, [], 0, []⟩
  else if 50 * 1024 * 1024 < plaintext.length then ⟨.OVERFLOW, [], 0, []⟩
  else
    let ct := xorBytes plaintext (M.keystream key iv plaintext.length)
    ⟨.SUCCESS, iv ++ ct, 12 + ct.length, M.tagOf key iv aad ct⟩

/-- `wc_decrypt_aes256gcm` (`crypto.c:191-262`).  Guards translated
verbatim: `tag_len < 16` or a frame shorter than 12 bytes rejects with
`INVALID_INPUT`.  The IV is the first 12 frame bytes, the body the rest;
the body is decrypted into the output buffer, then the tag over the same
key, IV, AAD and body is checked.  On mismatch the code wipes every
plaintext byte it wrote (`OPENSSL_cleanse(plaintext, plaintext_len_tmp)`)
and returns `AUTH_FAILED` without setting `*plaintext_len`. -/
def wc_decrypt_aes256gcm (M : GcmModel) (key ciphertext aad tag : List Nat)
    (tag_len : Nat) : DecryptResult :=
  if tag_len < 16 then ⟨.INVALID_INPUT, [], 0⟩
  else if ciphertext.length < 12 then ⟨.INVALID_INPUT, [], 0⟩
  else
    let iv := ciphertext.take 12
    let actual_ct := ciphertext.drop 12
    let pt := xorBytes actual_ct (M.keystream key iv actual_ct.length)
    if M.tagOf key iv aad actual_ct = tag then ⟨.SUCCESS, pt, pt.length⟩
    else ⟨.AUTH_FAILED, List.replicate pt.length 0, 0⟩

theorem xorBytes_cancel : ∀ (p ks : List Nat), ks.length = p.length →
    xorBytes (xorBytes p ks) ks = p := by
  intro p
  induction p with
  | nil => intro ks _; cases ks <;> simp [xorBytes]
  | cons a t ih =>
    intro ks hks
    cases ks with
    | nil => simp at hks
    | cons k kt =>
      simp only [xorBytes, List.zipWith] at *
      simp only [List.length_cons, Nat.succ.injEq] at hks
      rw [ih kt hks]
      exact congrArg (· :: t) (Nat.xor_cancel_right k a)

theorem xorBytes_length (a b : List Nat) :
    (xorBytes a b).length = min a.length b.length := by
  simp [xorBytes]

/-- A concrete instantiation of the abstract GCM primitive, used to
exercise the envelope theorems on explicit byte strings. -/
def gcmToy : GcmAuthModel where
  keystream := fun _ _ n => List.replicate n 7
  tagOf := fun _ _ aad _ => aad
  keystream_length := by intro k iv n; simp
  tag_aad_inj := by intro k iv a1 a2 c h; exact h

/-- C2: for every 32-byte key, plaintext of at most 50 MiB and aad
(possibly empty), decrypting the frame `IV || ct` and tag produced by
`wc_encrypt_aes256gcm` with the same key and aad returns
`WC_CRYPTO_SUCCESS`, recovers exactly the plaintext, and reports an output
length equal to the plaintext length.  The fresh 12-byte IV drawn from the
CSPRNG inside the C function is the explicit `iv` argument. -/
theorem wc_aes256gcm_roundtrip (M : GcmModel) (key p aad iv : List Nat) (tag_len : Nat)
    (hiv : iv.length = 12) (hp : p.length ≤ 50 * 1024 * 1024) (htl : 16 ≤ tag_len) :
    (wc_encrypt_aes256gcm M key p aad iv tag_len).err = WCCryptoError.SUCCESS ∧
    (wc_decrypt_aes256gcm M key (wc_encrypt_aes256gcm M key p aad iv tag_len).ciphertext aad
        (wc_encrypt_aes256gcm M key p aad iv tag_len).tag tag_len).err = WCCryptoError.SUCCESS ∧
    (wc_decrypt_aes256gcm M key (wc_encrypt_aes256gcm M key p aad iv tag_len).ciphertext aad
        (wc_encrypt_aes256gcm M key p aad iv tag_len).tag tag_len).plaintext = p ∧
    (wc_decrypt_aes256gcm M key (wc_encrypt_aes256gcm M key p aad iv tag_len).ciphertext aad
        (wc_encrypt_aes256gcm M key p aad iv tag_len).tag tag_len).plaintext_len = p.length := by
  have hnot16 : ¬ tag_len < 16 := by omega
  have hnotovf : ¬ 50 * 1024 * 1024 < p.length := by omega
  have hksl : (M.keystream key iv p.length).length = p.length := M.keystream_length key iv p.length
  have hctl : (xorBytes p (M.keystream key iv p.length)).length = p.length := by
    rw [xorBytes_length, hksl]; omega
  have hframe : ¬ (iv ++ xorBytes p (M.keystream key iv p.length)).length < 12 := by
    simp [hiv]
  have htake : (iv ++ xorBytes p (M.keystream key iv p.length)).take 12
      = iv := by rw [← hiv]; exact List.take_left iv _
  have hdrop : (iv ++ xorBytes p (M.keystream key iv p.length)).drop 12
      = xorBytes p (M.keystream key iv p.length) := by
    rw [← hiv]; exact List.drop_left iv _
  have hcancel := xorBytes_cancel p (M.keystream key iv p.length) hksl
  simp only [wc_encrypt_aes256gcm, if_neg hnot16, if_neg hnotovf]
  simp only [wc_decrypt_aes256gcm, if_neg hnot16, if_neg hframe, htake, hdrop, hctl,
    if_true, hcancel]
  exact ⟨trivial, trivial, trivial, trivial⟩

/-- Witness for `wc_aes256gcm_roundtrip` at explicit bytes. -/
theorem wc_aes256gcm_roundtrip_witness :
    (List.replicate 12 2 : List Nat).length = 12 ∧
    ([104, 105, 33] : List Nat).length ≤ 50 * 1024 * 1024 ∧
    (16 : Nat) ≤ 16 ∧
    ((wc_encrypt_aes256gcm gcmToy.toGcmModel [1, 2, 3] [104, 105, 33] [9, 9]
        (List.replicate 12 2) 16).err = WCCryptoError.SUCCESS ∧
      (wc_decrypt_aes256gcm gcmToy.toGcmModel [1, 2, 3]
          (wc_encrypt_aes256gcm gcmToy.toGcmModel [1, 2, 3] [104, 105, 33] [9, 9]
            (List.replicate 12 2) 16).ciphertext [9, 9]
          (wc_encrypt_aes256gcm gcmToy.toGcmModel [1, 2, 3] [104, 105, 33] [9, 9]
            (List.replicate 12 2) 16).tag 16).err = WCCryptoError.SUCCESS ∧
      (wc_decrypt_aes256gcm gcmToy.toGcmModel [1, 2, 3]
          (wc_encrypt_aes256gcm gcmToy.toGcmModel [1, 2, 3] [104, 105, 33] [9, 9]
            (List.replicate 12 2) 16).ciphertext [9, 9]
          (wc_encrypt_aes256gcm gcmToy.toGcmModel [1, 2, 3] [104, 105, 33] [9, 9]
            (List.replicate 12 2) 16).tag 16).plaintext = [104, 105, 33] ∧
      (wc_decrypt_aes256gcm gcmToy.toGcmModel [1, 2, 3]
          (wc_encrypt_aes256gcm gcmToy.toGcmModel [1, 2, 3] [104, 105, 33] [9, 9]
            (List.replicate 12 2) 16).ciphertext [9, 9]
          (wc_encrypt_aes256gcm gcmToy.toGcmModel [1, 2, 3] [104, 105, 33] [9, 9]
            (List.replicate 12 2) 16).tag 16).plaintext_len = ([104, 105, 33] : List Nat).length) :=
  ⟨by decide, by decide, by decide,
    wc_aes256gcm_roundtrip gcmToy.toGcmModel [1, 2, 3] [104, 105, 33] [9, 9]
      (List.replicate 12 2) 16 (by decide) (by decide) (by decide)⟩

/-- C3: decrypting a frame produced under `aad1` with a different `aad2`
returns `WC_CRYPTO_AUTH_FAILED` (stable integer −2), and every plaintext
byte written into the output buffer during decryption is zeroized before
the function returns (the buffer holds only zeros). -/
theorem wc_aes256gcm_aad_binding (M : GcmAuthModel) (key p aad1 aad2 iv : List Nat)
    (tag_len : Nat) (hneq : aad1 ≠ aad2) (hiv : iv.length = 12)
    (hp : p.length ≤ 50 * 1024 * 1024) (htl : 16 ≤ tag_len) :
    (wc_decrypt_aes256gcm M.toGcmModel key
        (wc_encrypt_aes256gcm M.toGcmModel key p aad1 iv tag_len).ciphertext aad2
        (wc_encrypt_aes256gcm M.toGcmModel key p aad1 iv tag_len).tag tag_len).err
      = WCCryptoError.AUTH_FAILED ∧
    WCCryptoError.code WCCryptoError.AUTH_FAILED = -2 ∧
    (wc_decrypt_aes256gcm M.toGcmModel key
        (wc_encrypt_aes256gcm M.toGcmModel key p aad1 iv tag_len).ciphertext aad2
        (wc_encrypt_aes256gcm M.toGcmModel key p aad1 iv tag_len).tag tag_len).plaintext
      = List.replicate p.length 0 := by
  have hnot16 : ¬ tag_len < 16 := by omega
  have hnotovf : ¬ 50 * 1024 * 1024 < p.length := by omega
  have hksl : (M.keystream key iv p.length).length = p.length :=
    M.keystream_length key iv p.length
  have hctl : (xorBytes p (M.keystream key iv p.length)).length = p.length := by
    rw [xorBytes_length, hksl]; omega
  have hframe : ¬ (iv ++ xorBytes p (M.keystream key iv p.length)).length < 12 := by
    simp [hiv]
  have htake : (iv ++ xorBytes p (M.keystream key iv p.length)).take 12
      = iv := by rw [← hiv]; exact List.take_left iv _
  have hdrop : (iv ++ xorBytes p (M.keystream key iv p.length)).drop 12
      = xorBytes p (M.keystream key iv p.length) := by
    rw [← hiv]; exact List.drop_left iv _
  simp only [wc_encrypt_aes256gcm, if_neg hnot16, if_neg hnotovf]
  simp only [wc_decrypt_aes256gcm, if_neg hnot16, if_neg hframe, htake, hdrop, hctl]
  rw [if_neg (M.tag_aad_inj key iv aad2 aad1 _ (Ne.symm hneq))]
  refine ⟨rfl, rfl, ?_⟩
  have : (xorBytes (xorBytes p (M.keystream key iv p.length))
      (M.keystream key iv p.length)).length = p.length := by
    rw [xorBytes_length, hctl, hksl]; omega
  rw [this]

/-- Witness for `wc_aes256gcm_aad_binding` at explicit bytes. -/
theorem wc_aes256gcm_aad_binding_witness :
    ([5] : List Nat) ≠ [6] ∧
    (List.replicate 12 4 : List Nat).length = 12 ∧
    ([10, 20] : List Nat).length ≤ 50 * 1024 * 1024 ∧
    (16 : Nat) ≤ 16 ∧
    ((wc_decrypt_aes256gcm gcmToy.toGcmModel [7]
        (wc_encrypt_aes256gcm gcmToy.toGcmModel [7] [10, 20] [5]
          (List.replicate 12 4) 16).ciphertext [6]
        (wc_encrypt_aes256gcm gcmToy.toGcmModel [7] [10, 20] [5]
          (List.replicate 12 4) 16).tag 16).err = WCCryptoError.AUTH_FAILED ∧
      WCCryptoError.code WCCryptoError.AUTH_FAILED = -2 ∧
      (wc_decrypt_aes256gcm gcmToy.toGcmModel [7]
          (wc_encrypt_aes256gcm gcmToy.toGcmModel [7] [10, 20] [5]
            (List.replicate 12 4) 16).ciphertext [6]
          (wc_encrypt_aes256gcm gcmToy.toGcmModel [7] [10, 20] [5]
            (List.replicate 12 4) 16).tag 16).plaintext
        = List.replicate ([10, 20] : List Nat).length 0) :=
  ⟨by decide, by decide, by decide, by decide,
    wc_aes256gcm_aad_binding gcmToy [7] [10, 20] [5] [6] (List.replicate 12 4) 16
      (by decide) (by decide) (by decide) (by decide)⟩

end WorkChain.Crypto

namespace WorkChain.Security

/-! ## Threat engine data model — `ThreatEngine.hpp` -/

/-- `ThreatLevel` (`ThreatEngine.hpp`): totally ordered severity enum. -/
inductive ThreatLevel
  | SAFE
  | LOW
  | MEDIUM
  | HIGH
  | CRITICAL
  deriving DecidableEq

/-- The `uint8_t` value of each level; C++ `>=` comparisons between levels
compare these values. -/
def ThreatLevel.toNat : ThreatLevel → Nat
  | .SAFE => 0
  | .LOW => 1
  | .MEDIUM => 2
  | .HIGH => 3
  | .CRITICAL => 4

/-- `BehaviorPattern` (`ThreatEngine.hpp`). -/
inductive BehaviorPattern
  | NORMAL
  | RAPID_FAILURES
  | ENUMERATION
  | PAYLOAD_INJECTION
  | TIMING_ATTACK
  | RESOURCE_ABUSE
  deriving DecidableEq

/-- `BehaviorMetrics` (`ThreatEngine.hpp`).  `timestamp` is milliseconds on
the monotonic clock; `confidence` and the indicator values are `ℚ` models
of the C++ floats. -/
structure BehaviorMetrics where
  client_id : String
  resource_id : String
  timestamp : Int
  pattern : BehaviorPattern
  confidence : ℚ
  indicators : List (String × ℚ)
  deriving DecidableEq

/-- `AnomalyScore` (`ThreatEngine.hpp`). -/
structure AnomalyScore where
  client_id : String
  score : ℚ
  level : ThreatLevel
  detected_patterns : List BehaviorPattern
  timestamp : Int
  deriving DecidableEq

/-- `BehaviorAnalyzer::ClientHistory` (`ThreatEngine.hpp`). -/
structure ClientHistory where
  behaviors : List BehaviorMetrics
  first_seen : Int
  last_seen : Int
  deriving DecidableEq

/-- A value-initialized `ClientHistory`, as produced by
`history[client_id]` on first access (times at the clock epoch). -/
def emptyClientHistory : ClientHistory := ⟨[], 0, 0⟩

/-- The state of a `BehaviorAnalyzer`: the per-client history map and the
`max_history_size` bound fixed at construction (default 10000). -/
structure BehaviorAnalyzerState where
  history : List (String × ClientHistory)
  max_history_size : Nat
  deriving DecidableEq

/-! ## BehaviorAnalyzer — `ThreatEngine.cpp:55-215` -/

/-- `BehaviorAnalyzer::cleanupStaleHistory` (`ThreatEngine.cpp:82-92`):
drop clients idle for more than 24 hours
(`duration_cast<hours>` truncates toward zero). -/
def cleanupStaleHistory (now : Int) (h : List (String × ClientHistory)) :
    List (String × ClientHistory) :=
  h.filter (fun e => decide (Int.tdiv (now - e.2.last_seen) 3600000 ≤ 24))

/-- `BehaviorAnalyzer::recordBehavior` (`ThreatEngine.cpp:58-79`): optional
stale-history GC when more than 10000 clients are tracked, then append the
observation to the client's window, set `first_seen` on the first ever
observation, update `last_seen`, and evict the oldest element when the
window exceeds `max_history_size`. -/
def recordBehavior (now : Int) (st : BehaviorAnalyzerState) (metrics : BehaviorMetrics) :
    BehaviorAnalyzerState :=
  let h0 := if 10000 < st.history.length then cleanupStaleHistory now st.history
            else st.history
  let ch := (lookupA h0 metrics.client_id).getD emptyClientHistory
  let ch1 := if ch.behaviors = [] then { ch with first_seen := metrics.timestamp } else ch
  let ch2 := { ch1 with behaviors := ch1.behaviors ++ [metrics], last_seen := metrics.timestamp }
  let ch3 := if st.max_history_size < ch2.behaviors.length then
               { ch2 with behaviors := ch2.behaviors.drop 1 }
             else ch2
  { st with history := insertA h0 metrics.client_id ch3 }

/-- `BehaviorAnalyzer::calculateRapidFailureScore` (`ThreatEngine.cpp:138-152`):
walk the window from the newest element backwards, stop at the first
element older than 60 s, count elements with `confidence > 0.8`, and score
`min(count / 5, 1)`. -/
def calculateRapidFailureScore (now : Int) (h : ClientHistory) : ℚ :=
  if h.behaviors.length < 3 then 0
  else
    let recent := h.behaviors.reverse.takeWhile (fun b => decide (now - b.timestamp ≤ 60000))
    let failures := (recent.filter (fun b => decide ((0.8 : ℚ) < b.confidence))).length
    min ((failures : ℚ) / 5) 1

/-- `BehaviorAnalyzer::calculateEnumerationScore` (`ThreatEngine.cpp:154-165`):
count distinct non-empty `resource_id`s and score `min(unique / 20, 1)`. -/
def calculateEnumerationScore (h : ClientHistory) : ℚ :=
  if h.behaviors.length < 5 then 0
  else
    let ids := ((h.behaviors.map (fun b => b.resource_id)).filter
      (fun r => decide (r ≠ ""))).dedup
    min ((ids.length : ℚ) / 20) 1

/-- `BehaviorAnalyzer::calculatePayloadScore` (`ThreatEngine.cpp:167-173`):
1 if any observation carries `PAYLOAD_INJECTION`, else 0. -/
def calculatePayloadScore (h : ClientHistory) : ℚ :=
  let suspicious := (h.behaviors.filter
    (fun b => decide (b.pattern = BehaviorPattern.PAYLOAD_INJECTION))).length
  if 0 < suspicious then 1 else 0

/-- `BehaviorAnalyzer::calculateTimingScore` (`ThreatEngine.cpp:175-193`):
inter-arrival deltas, their mean and population variance; the C++ code
tests `std_dev < 10.0`, which for a nonnegative variance is exactly
`variance < 100`, avoiding the square root over `ℚ`. -/
def calculateTimingScore (h : ClientHistory) : ℚ :=
  if h.behaviors.length < 10 then 0
  else
    let times := h.behaviors.map (fun b => (b.timestamp : ℚ))
    let intervals := List.zipWith (fun a b => b - a) times (times.drop 1)
    let n : ℚ := intervals.length
    let mean := intervals.sum / n
    let variance := (intervals.map (fun d => (d - mean) * (d - mean))).sum / n
    if variance < 100 then 0.9 else 0

/-- `BehaviorAnalyzer::calculateResourceScore` (`ThreatEngine.cpp:195-206`):
count observations whose `indicators["resource_usage"] > 0.8` and score
`min(count / 10, 1)`. -/
def calculateResourceScore (h : ClientHistory) : ℚ :=
  if h.behaviors.length < 5 then 0
  else
    let highs := (h.behaviors.filter (fun b =>
      match lookupA b.indicators "resource_usage" with
      | some v => decide ((0.8 : ℚ) < v)
      | none => false)).length
    min ((highs : ℚ) / 10) 1

/-- `BehaviorAnalyzer::analyzeBehavior` (`ThreatEngine.cpp:94-135`): the
weighted composite score, clamped to 1; a pattern is detected when its
sub-score exceeds 0.7; the level bands use strict comparisons.  The method
only reads the history under a shared lock, so it is a pure function of
the analyzer state and the clock. -/
def analyzeBehavior (now : Int) (st : BehaviorAnalyzerState) (client_id : String) :
    AnomalyScore :=
  match lookupA st.history client_id with
  | none => ⟨client_id, 0, .SAFE, [], now⟩
  | some ch =>
    if ch.behaviors = [] then ⟨client_id, 0, .SAFE, [], now⟩
    else
      let total := calculateRapidFailureScore now ch * 0.25
        + calculateEnumerationScore ch * 0.25
        + calculatePayloadScore ch * 0.30
        + calculateTimingScore ch * 0.10
        + calculateResourceScore ch * 0.10
      let final_score := min total 1
      let patterns :=
        (if 0.7 < calculateRapidFailureScore now ch then [BehaviorPattern.RAPID_FAILURES] else [])
        ++ (if 0.7 < calculateEnumerationScore ch then [BehaviorPattern.ENUMERATION] else [])
        ++ (if 0.7 < calculatePayloadScore ch then [BehaviorPattern.PAYLOAD_INJECTION] else [])
        ++ (if 0.7 < calculateTimingScore ch then [BehaviorPattern.TIMING_ATTACK] else [])
        ++ (if 0.7 < calculateResourceScore ch then [BehaviorPattern.RESOURCE_ABUSE] else [])
      let level :=
        if 0.9 < final_score then ThreatLevel.CRITICAL
        else if 0.75 < final_score then ThreatLevel.HIGH
        else if 0.5 < final_score then ThreatLevel.MEDIUM
        else if 0.25 < final_score then ThreatLevel.LOW
        else ThreatLevel.SAFE
      ⟨client_id, final_score, level, patterns, now⟩

/-! ## AdaptiveThresholdManager — `ThreatEngine.cpp:223-258` -/

/-- State of an `AdaptiveThresholdManager`: the named float thresholds and
the per-level hit counters. -/
structure AdaptiveThresholdState where
  thresholds : List (String × ℚ)
  hit_counts : List (String × Nat)
  deriving DecidableEq

/-- `AdaptiveThresholdManager::AdaptiveThresholdManager`
(`ThreatEngine.cpp:223-228`): the constructor defaults. -/
def thresholdManagerInit : AdaptiveThresholdState :=
  ⟨[("rate_limit", 100), ("anomaly_score", 0.5), ("failure_count", 5),
    ("enumeration_attempts", 20)], []⟩

/-- `AdaptiveThresholdManager::updateThreshold` (`ThreatEngine.cpp:230-233`). -/
def updateThreshold (st : AdaptiveThresholdState) (metric : String) (v : ℚ) :
    AdaptiveThresholdState :=
  { st with thresholds := insertA st.thresholds metric v }

/-- `AdaptiveThresholdManager::getThreshold` (`ThreatEngine.cpp:235-239`):
lookup with unknown-key fallback 0.5. -/
def getThreshold (st : AdaptiveThresholdState) (metric : String) : ℚ :=
  (lookupA st.thresholds metric).getD 0.5

/-- `AdaptiveThresholdManager::reinforceThresholds` (`ThreatEngine.cpp:241-250`):
increment the hit counter keyed by the level's integer value; on
`level >= HIGH`, set `rate_limit` to `max(10, rate_limit * 0.9)` and
`anomaly_score` to `max(0.2, anomaly_score * 0.95)`.  `thresholds[...]`
is C++ `operator[]`: a missing key reads as 0. -/
def reinforceThresholds (st : AdaptiveThresholdState) (anomaly : AnomalyScore) :
    AdaptiveThresholdState :=
  let key := toString (ThreatLevel.toNat anomaly.level)
  let hits := insertA st.hit_counts key ((lookupA st.hit_counts key).getD 0 + 1)
  if ThreatLevel.HIGH.toNat ≤ anomaly.level.toNat then
    let rl := (lookupA st.thresholds "rate_limit").getD 0
    let t1 := insertA st.thresholds "rate_limit" (max 10 (rl * 0.9))
    let a0 := (lookupA t1 "anomaly_score").getD 0
    ⟨insertA t1 "anomaly_score" (max 0.2 (a0 * 0.95)), hits⟩
  else ⟨st.thresholds, hits⟩

/-- `AdaptiveThresholdManager::resetThresholds` (`ThreatEngine.cpp:252-258`):
clear both maps, then restore only `rate_limit = 100`. -/
def resetThresholds (_st : AdaptiveThresholdState) : AdaptiveThresholdState :=
  ⟨[("rate_limit", 100)], []⟩

/-! ## RateLimitingPolicy — `ThreatEngine.cpp:266-305` -/

/-- `RateLimitingPolicy::ClientPolicy` (`ThreatEngine.hpp`). -/
structure ClientPolicy where
  requests_per_second : Nat
  last_reset : Int
  request_count : Nat
  deriving DecidableEq

/-- A value-initialized `ClientPolicy`, as produced by
`policies[client_id]` on first access. -/
def defaultClientPolicy : ClientPolicy := ⟨0, 0, 0⟩

/-- State of a `RateLimitingPolicy`: the per-client policies and the
`default_rps` fixed at construction (default 100). -/
structure RateLimitingPolicyState where
  policies : List (String × ClientPolicy)
  default_rps : Nat
  deriving DecidableEq

/-- `RateLimitingPolicy::checkLimit` (`ThreatEngine.cpp:269-289`):
initialize a fresh client's cap to `default_rps`; reset the window when at
least one full second has elapsed (`duration_cast<seconds>` truncates
toward zero, hence `Int.tdiv` by 1000); deny when the counter has reached
the cap, otherwise count and allow. -/
def checkLimit (now : Int) (st : RateLimitingPolicyState) (client_id : String) :
    Bool × RateLimitingPolicyState :=
  let p0 := (lookupA st.policies client_id).getD defaultClientPolicy
  let p1 := if p0.requests_per_second = 0 then
              { p0 with requests_per_second := st.default_rps }
            else p0
  let p2 := if 1 ≤ Int.tdiv (now - p1.last_reset) 1000 then
              { p1 with request_count := 0, last_reset := now }
            else p1
  if p2.requests_per_second ≤ p2.request_count then
    (false, { st with policies := insertA st.policies client_id p2 })
  else
    let p3 := { p2 with request_count := p2.request_count + 1 }
    (true, { st with policies := insertA st.policies client_id p3 })

/-- `RateLimitingPolicy::enforceDynamicLimits` (`ThreatEngine.cpp:291-300`):
on `level >= HIGH` set the cap to `max(1, default_rps / 10)`; else on
`level >= MEDIUM` set it to `max(5, default_rps / 5)`; otherwise leave the
(possibly freshly created) policy unchanged. -/
def enforceDynamicLimits (st : RateLimitingPolicyState) (anomaly : AnomalyScore) :
    RateLimitingPolicyState :=
  let p0 := (lookupA st.policies anomaly.client_id).getD defaultClientPolicy
  let p1 :=
    if ThreatLevel.HIGH.toNat ≤ anomaly.level.toNat then
      { p0 with requests_per_second := max 1 (st.default_rps / 10) }
    else if ThreatLevel.MEDIUM.toNat ≤ anomaly.level.toNat then
      { p0 with requests_per_second := max 5 (st.default_rps / 5) }
    else p0
  { st with policies := insertA st.policies anomaly.client_id p1 }

/-! ## ThreatResponseEngine and NanoSecurityMesh — `ThreatEngine.cpp:313-418` -/

/-- `ThreatResponseEngine::ClientIsolation` (`ThreatEngine.hpp`). -/
structure ClientIsolation where
  client_id : String
  level : ThreatLevel
  isolation_start : Int
  reason : String
  deriving DecidableEq

/-- `ThreatResponseEngine::respondToThreat` (`ThreatEngine.cpp:315-322`):
only the CRITICAL branch mutates engine state (appending an isolation
record); throttling and alerting are outbound log events. -/
def respondToThreat (now : Int) (isolated : List ClientIsolation)
    (anomaly : AnomalyScore) : List ClientIsolation :=
  if ThreatLevel.CRITICAL.toNat ≤ anomaly.level.toNat then
    isolated ++ [⟨anomaly.client_id, anomaly.level, now,
      "Threat level exceeded CRITICAL threshold - ISOLATION ENFORCED"⟩]
  else isolated

/-- State of a `NanoSecurityMesh`: the `initialized` flag (named `ready`
here) and its five owned components; the signature database never affects
the verdict. -/
structure NanoSecurityMeshState where
  ready : Bool
  analyzer : BehaviorAnalyzerState
  thresholds : AdaptiveThresholdState
  limiter : RateLimitingPolicyState
  isolated : List ClientIsolation
  deriving DecidableEq

/-- The mesh as constructed (`ThreatEngine.cpp:356-362`): not yet
initialized, with default sub-components. -/
def meshInit : NanoSecurityMeshState :=
  ⟨false, ⟨[], 10000⟩, thresholdManagerInit, ⟨[], 100⟩, []⟩

/-- `NanoSecurityMesh::initialize` (`ThreatEngine.cpp:366-369`). -/
def markInitialized (st : NanoSecurityMeshState) : NanoSecurityMeshState :=
  { st with ready := true }

/-- `NanoSecurityMesh::processRequest` (`ThreatEngine.cpp:374-404`): fail
open before initialization; deny on rate limit; record then score; on
`level >= MEDIUM` reinforce thresholds, tighten the dynamic cap and fire
the response engine; deny on `level >= CRITICAL` or a detected
`PAYLOAD_INJECTION`; otherwise allow. -/
def processRequest (now : Int) (st : NanoSecurityMeshState) (client_id : String)
    (metrics : BehaviorMetrics) : Bool × NanoSecurityMeshState :=
  if st.ready = false then (true, st)
  else
    let r := checkLimit now st.limiter client_id
    if r.1 = false then (false, { st with limiter := r.2 })
    else
      let an1 := recordBehavior now st.analyzer metrics
      let anomaly := analyzeBehavior now an1 client_id
      let st1 :=
        if ThreatLevel.MEDIUM.toNat ≤ anomaly.level.toNat then
          { st with analyzer := an1,
                    thresholds := reinforceThresholds st.thresholds anomaly,
                    limiter := enforceDynamicLimits r.2 anomaly,
                    isolated := respondToThreat now st.isolated anomaly }
        else { st with analyzer := an1, limiter := r.2 }
      if ThreatLevel.CRITICAL.toNat ≤ anomaly.level.toNat then (false, st1)
      else if BehaviorPattern.PAYLOAD_INJECTION ∈ anomaly.detected_patterns then (false, st1)
      else (true, st1)

/-! ## Claims about the threat engine -/

theorem critical_toNat_le_iff (l : ThreatLevel) :
    ThreatLevel.CRITICAL.toNat ≤ l.toNat ↔ l = ThreatLevel.CRITICAL := by
  cases l <;> simp [ThreatLevel.toNat]

/-- C1: `processRequest` denies exactly when the mesh has been initialized
and either the rate-limit check fails, or the anomaly computed on the
post-record history has level CRITICAL, or `PAYLOAD_INJECTION` is among
its detected patterns; before initialization it always allows (fail
open). -/
theorem processRequest_verdict (now : Int) (st : NanoSecurityMeshState)
    (client_id : String) (m : BehaviorMetrics) :
    (processRequest now st client_id m).1 = false ↔
      (st.ready = true ∧
        ((checkLimit now st.limiter client_id).1 = false ∨
          (analyzeBehavior now (recordBehavior now st.analyzer m) client_id).level
            = ThreatLevel.CRITICAL ∨
          BehaviorPattern.PAYLOAD_INJECTION
            ∈ (analyzeBehavior now (recordBehavior now st.analyzer m)
                client_id).detected_patterns)) := by
  simp only [processRequest]
  by_cases hready : st.ready = false
  · rw [if_pos hready]
    simp [hready]
  · rw [if_neg hready]
    replace hready : st.ready = true := by cases h : st.ready <;> simp_all
    by_cases hr : (checkLimit now st.limiter client_id).1 = false
    · rw [if_pos hr]
      simp [hr, hready]
    · rw [if_neg hr]
      by_cases h1 : ThreatLevel.CRITICAL.toNat
          ≤ (analyzeBehavior now (recordBehavior now st.analyzer m) client_id).level.toNat
      · rw [if_pos h1]
        rw [critical_toNat_le_iff] at h1
        simp [h1, hready]
      · rw [if_neg h1]
        rw [critical_toNat_le_iff] at h1
        by_cases h2 : BehaviorPattern.PAYLOAD_INJECTION
            ∈ (analyzeBehavior now (recordBehavior now st.analyzer m)
                client_id).detected_patterns
        · rw [if_pos h2]
          simp [h2, hready]
        · rw [if_neg h2]
          simp [h1, h2, hr, hready]

/-- C10: `resetThresholds` clears the threshold map and restores only
`rate_limit = 100`; `anomaly_score`, `failure_count` and
`enumeration_attempts` are erased, so `getThreshold` on them returns the
unknown-key fallback 0.5 — not the constructor defaults 0.5, 5 and 20. -/
theorem resetThresholds_spec (ts : AdaptiveThresholdState) :
    getThreshold (resetThresholds ts) "rate_limit" = 100 ∧
    getThreshold (resetThresholds ts) "anomaly_score" = 0.5 ∧
    getThreshold (resetThresholds ts) "failure_count" = 0.5 ∧
    getThreshold (resetThresholds ts) "enumeration_attempts" = 0.5 ∧
    lookupA (resetThresholds ts).thresholds "anomaly_score" = none ∧
    lookupA (resetThresholds ts).thresholds "failure_count" = none ∧
    lookupA (resetThresholds ts).thresholds "enumeration_attempts" = none ∧
    getThreshold thresholdManagerInit "anomaly_score" = 0.5 ∧
    getThreshold thresholdManagerInit "failure_count" = 5 ∧
    getThreshold thresholdManagerInit "enumeration_attempts" = 20 := by
  have h1 : ("rate_limit" : String) ≠ "anomaly_score" := by decide
  have h2 : ("rate_limit" : String) ≠ "failure_count" := by decide
  have h3 : ("rate_limit" : String) ≠ "enumeration_attempts" := by decide
  have h4 : ("anomaly_score" : String) ≠ "failure_count" := by decide
  have h5 : ("anomaly_score" : String) ≠ "enumeration_attempts" := by decide
  have h6 : ("failure_count" : String) ≠ "enumeration_attempts" := by decide
  norm_num [resetThresholds, getThreshold, thresholdManagerInit, lookupA,
    h1, h2, h3, h4, h5, h6]

/-- An anomaly scored at level HIGH, as would be produced for a client
whose composite score exceeds 0.75. -/
def anomalyHigh : AnomalyScore := ⟨"c", 0.8, .HIGH, [], 0⟩

/-- An anomaly scored at level MEDIUM. -/
def anomalyMedium : AnomalyScore := ⟨"c", 0.6, .MEDIUM, [], 0⟩

/-- The rate-limiter state reached from a fresh limiter (default_rps 100)
by one HIGH-level `enforceDynamicLimits` call: client `"c"` is capped at
`max(1, 100/10) = 10`. -/
def c6_st : RateLimitingPolicyState := enforceDynamicLimits ⟨[], 100⟩ anomalyHigh

/-- C6 counterexample: from the reachable state where a HIGH-level
enforcement set the cap to 10, a MEDIUM-level `enforceDynamicLimits` call
raises the cap to 20 — dynamic enforcement can relax a cap. -/
theorem enforceDynamicLimits_raises_cap :
    ((lookupA c6_st.policies "c").getD defaultClientPolicy).requests_per_second = 10 ∧
    ((lookupA (enforceDynamicLimits c6_st anomalyMedium).policies "c").getD
        defaultClientPolicy).requests_per_second = 20 ∧
    ¬ ((lookupA (enforceDynamicLimits c6_st anomalyMedium).policies "c").getD
          defaultClientPolicy).requests_per_second
        ≤ ((lookupA c6_st.policies "c").getD defaultClientPolicy).requests_per_second := by
  decide

/-- C6 (amended): `enforceDynamicLimits` sets the client's cap to
`max(1, default_rps/10)` on `level ≥ HIGH`, to `max(5, default_rps/5)` on
`MEDIUM ≤ level < HIGH`, and leaves it unchanged otherwise; it is not
monotone — a MEDIUM call after a HIGH call raises the cap from 10 to 20
with the default `default_rps = 100`. -/
theorem enforceDynamicLimits_cap (st : RateLimitingPolicyState) (a : AnomalyScore) :
    ((lookupA (enforceDynamicLimits st a).policies a.client_id).getD
        defaultClientPolicy).requests_per_second =
      if ThreatLevel.HIGH.toNat ≤ a.level.toNat then max 1 (st.default_rps / 10)
      else if ThreatLevel.MEDIUM.toNat ≤ a.level.toNat then max 5 (st.default_rps / 5)
      else ((lookupA st.policies a.client_id).getD
        defaultClientPolicy).requests_per_second := by
  simp only [enforceDynamicLimits, lookupA_insertA_self, Option.getD_some]
  split_ifs <;> rfl

/-- The threshold state reached from the constructor defaults by the public
setter `updateThreshold("rate_limit", 5)`. -/
def c7_ts : AdaptiveThresholdState := updateThreshold thresholdManagerInit "rate_limit" 5

/-- C7 counterexample: from a reachable state with `rate_limit = 5`, a
HIGH-level `reinforceThresholds` call RAISES `rate_limit` to the floor 10,
above its pre-call value. -/
theorem reinforceThresholds_raises_rate_limit :
    getThreshold c7_ts "rate_limit" = 5 ∧
    getThreshold (reinforceThresholds c7_ts anomalyHigh) "rate_limit" = 10 ∧
    ¬ getThreshold (reinforceThresholds c7_ts anomalyHigh) "rate_limit"
        ≤ getThreshold c7_ts "rate_limit" := by
  norm_num [c7_ts, updateThreshold, thresholdManagerInit, insertA, reinforceThresholds,
    getThreshold, lookupA, anomalyHigh, ThreatLevel.toNat, max_def]

/-- C7 (amended): from any state where `rate_limit ≥ 10` and
`anomaly_score ≥ 0.2` (as in the constructor defaults, and preserved by
every reinforcement), `reinforceThresholds` never raises either threshold,
and keeps each at or above its floor (10.0 and 0.2); hence every sequence
of reinforcements from such a state is monotonically non-increasing. -/
theorem reinforceThresholds_monotone (ts : AdaptiveThresholdState) (a : AnomalyScore)
    (hrl : 10 ≤ getThreshold ts "rate_limit")
    (has : 0.2 ≤ getThreshold ts "anomaly_score") :
    getThreshold (reinforceThresholds ts a) "rate_limit"
        ≤ getThreshold ts "rate_limit" ∧
    getThreshold (reinforceThresholds ts a) "anomaly_score"
        ≤ getThreshold ts "anomaly_score" ∧
    10 ≤ getThreshold (reinforceThresholds ts a) "rate_limit" ∧
    0.2 ≤ getThreshold (reinforceThresholds ts a) "anomaly_score" := by
  have hne : ("rate_limit" : String) ≠ "anomaly_score" := by decide
  by_cases hl : ThreatLevel.HIGH.toNat ≤ a.level.toNat
  · have e1 : getThreshold (reinforceThresholds ts a) "rate_limit"
        = max 10 ((lookupA ts.thresholds "rate_limit").getD 0 * 0.9) := by
      simp only [reinforceThresholds, if_pos hl, getThreshold]
      rw [lookupA_insertA_ne _ _ _ _ (Ne.symm hne), lookupA_insertA_self]
      rfl
    have e2 : getThreshold (reinforceThresholds ts a) "anomaly_score"
        = max 0.2 ((lookupA ts.thresholds "anomaly_score").getD 0 * 0.95) := by
      simp only [reinforceThresholds, if_pos hl, getThreshold]
      rw [lookupA_insertA_self, lookupA_insertA_ne _ _ _ _ hne]
      rfl
    rcases hcr : lookupA ts.thresholds "rate_limit" with _ | rl
    · exfalso
      simp only [getThreshold, hcr, Option.getD_none] at hrl
      norm_num at hrl
    · have hBrl : getThreshold ts "rate_limit" = rl := by
        simp [getThreshold, hcr]
      have hrl' : (10 : ℚ) ≤ rl := hBrl ▸ hrl
      have e1' : getThreshold (reinforceThresholds ts a) "rate_limit"
          = max 10 (rl * 0.9) := by rw [e1, hcr]; rfl
      rcases hca : lookupA ts.thresholds "anomaly_score" with _ | av
      · have hBas : getThreshold ts "anomaly_score" = 0.5 := by
          simp [getThreshold, hca]
        have e2' : getThreshold (reinforceThresholds ts a) "anomaly_score"
            = max 0.2 ((0 : ℚ) * 0.95) := by rw [e2, hca]; rfl
        rw [e1', e2', hBrl, hBas]
        refine ⟨max_le hrl' (by linarith), ?_, le_max_left _ _, le_max_left _ _⟩
        norm_num
      · have hBas : getThreshold ts "anomaly_score" = av := by
          simp [getThreshold, hca]
        have has' : (0.2 : ℚ) ≤ av := hBas ▸ has
        have e2' : getThreshold (reinforceThresholds ts a) "anomaly_score"
            = max 0.2 (av * 0.95) := by rw [e2, hca]; rfl
        rw [e1', e2', hBrl, hBas]
        exact ⟨max_le hrl' (by linarith), max_le has' (by linarith),
          le_max_left _ _, le_max_left _ _⟩
  · have e0 : (reinforceThresholds ts a).thresholds = ts.thresholds := by
      simp [reinforceThresholds, if_neg hl]
    simp only [getThreshold, e0]
    exact ⟨le_refl _, le_refl _, hrl, has⟩

/-- Witness for `reinforceThresholds_monotone`: a HIGH reinforcement from
the constructor defaults. -/
theorem reinforceThresholds_monotone_witness :
    10 ≤ getThreshold thresholdManagerInit "rate_limit" ∧
    0.2 ≤ getThreshold thresholdManagerInit "anomaly_score" ∧
    (getThreshold (reinforceThresholds thresholdManagerInit anomalyHigh) "rate_limit"
        ≤ getThreshold thresholdManagerInit "rate_limit" ∧
      getThreshold (reinforceThresholds thresholdManagerInit anomalyHigh) "anomaly_score"
        ≤ getThreshold thresholdManagerInit "anomaly_score" ∧
      10 ≤ getThreshold (reinforceThresholds thresholdManagerInit anomalyHigh) "rate_limit" ∧
      0.2 ≤ getThreshold (reinforceThresholds thresholdManagerInit anomalyHigh)
        "anomaly_score") := by
  have h1 : ("rate_limit" : String) ≠ "anomaly_score" := by decide
  refine ⟨?_, ?_, reinforceThresholds_monotone thresholdManagerInit anomalyHigh ?_ ?_⟩
  · norm_num [getThreshold, thresholdManagerInit, lookupA, h1]
  · norm_num [getThreshold, thresholdManagerInit, lookupA, h1]
  · norm_num [getThreshold, thresholdManagerInit, lookupA, h1]
  · norm_num [getThreshold, thresholdManagerInit, lookupA, h1]

/-- A benign observation for client `"c"`. -/
def c4_metrics : BehaviorMetrics := ⟨"c", "", 0, .NORMAL, 0, []⟩

/-- The Behavior Store state reached from empty by recording one benign
observation for `"c"`. -/
def c4_st : BehaviorAnalyzerState := recordBehavior 0 ⟨[], 10000⟩ c4_metrics

/-- C4 counterexample: a client with one benign recorded observation has a
non-empty history, yet `analyzeBehavior` returns level SAFE with an empty
detected-pattern set — refuting "level = SAFE iff detected_patterns = ∅
and the client has no history". -/
theorem analyzeBehavior_safe_with_history :
    (analyzeBehavior 0 c4_st "c").level = ThreatLevel.SAFE ∧
    (analyzeBehavior 0 c4_st "c").detected_patterns = [] ∧
    ((lookupA c4_st.history "c").getD emptyClientHistory).behaviors ≠ [] := by
  have hnp : BehaviorPattern.NORMAL ≠ BehaviorPattern.PAYLOAD_INJECTION := by decide
  norm_num [c4_st, c4_metrics, recordBehavior, analyzeBehavior, lookupA, insertA,
    emptyClientHistory, calculateRapidFailureScore, calculateEnumerationScore,
    calculatePayloadScore, calculateTimingScore, calculateResourceScore,
    cleanupStaleHistory, List.filter_cons, List.filter_nil, List.cons_ne_nil, hnp]

/-- C4 (amended): `analyzeBehavior` returns level SAFE exactly when the
computed score is at most 0.25, and a client with no history gets score 0,
level SAFE and no detected patterns; SAFE does not imply an empty history
or even an empty pattern set. -/
theorem analyzeBehavior_safe_iff (now : Int) (st : BehaviorAnalyzerState)
    (c : String) (n : Nat) :
    ((analyzeBehavior now st c).level = ThreatLevel.SAFE ↔
      (analyzeBehavior now st c).score ≤ 0.25) ∧
    analyzeBehavior now ⟨[], n⟩ c = ⟨c, 0, ThreatLevel.SAFE, [], now⟩ := by
  constructor
  · cases hch : lookupA st.history c with
    | none =>
      simp only [analyzeBehavior, hch]
      norm_num
    | some ch =>
      by_cases hb : ch.behaviors = []
      · simp only [analyzeBehavior, hch, if_pos hb]
        norm_num
      · simp only [analyzeBehavior, hch, if_neg hb]
        split_ifs with h1 h2 h3 h4
        · refine ⟨fun hx => absurd hx (by decide), fun hx => absurd hx ?_⟩
          push_neg
          linarith
        · refine ⟨fun hx => absurd hx (by decide), fun hx => absurd hx ?_⟩
          push_neg
          linarith
        · refine ⟨fun hx => absurd hx (by decide), fun hx => absurd hx ?_⟩
          push_neg
          linarith
        · refine ⟨fun hx => absurd hx (by decide), fun hx => absurd hx ?_⟩
          push_neg
          linarith
        · exact ⟨fun _ => le_of_not_lt h4, fun _ => rfl⟩
  · rfl

/-- Observation at time 1 for the eviction scenario. -/
def c8_m1 : BehaviorMetrics := ⟨"c", "", 1, .NORMAL, 0, []⟩

/-- Observation at time 2 for the eviction scenario. -/
def c8_m2 : BehaviorMetrics := ⟨"c", "", 2, .NORMAL, 0, []⟩

/-- Observation at time 3 for the eviction scenario. -/
def c8_m3 : BehaviorMetrics := ⟨"c", "", 3, .NORMAL, 0, []⟩

/-- A Behavior Store with `max_history_size = 2` after recording three
observations at times 1, 2 and 3: the third record evicts the oldest
element. -/
def c8_st : BehaviorAnalyzerState :=
  recordBehavior 3 (recordBehavior 2 (recordBehavior 1 ⟨[], 2⟩ c8_m1) c8_m2) c8_m3

/-- C8 counterexample: after the eviction the window holds the
observations at times 2 and 3, but `first_seen` still holds 1 — it is not
updated to the timestamp of the new front element. -/
theorem recordBehavior_eviction_keeps_first_seen :
    ((lookupA c8_st.history "c").getD emptyClientHistory).behaviors.map
        (fun b => b.timestamp) = [2, 3] ∧
    ((lookupA c8_st.history "c").getD emptyClientHistory).first_seen = 1 ∧
    ((lookupA c8_st.history "c").getD emptyClientHistory).first_seen ≠ 2 := by
  decide

/-- C8 (amended): when the client already has a non-empty window (and the
client-map GC does not run), `recordBehavior` leaves `first_seen`
unchanged — also on the eviction path; it permanently holds the timestamp
of the client's first recorded observation rather than being refreshed to
the new front after an eviction. -/
theorem recordBehavior_first_seen_unchanged (now : Int) (st : BehaviorAnalyzerState)
    (m : BehaviorMetrics) (ch : ClientHistory)
    (hch : lookupA st.history m.client_id = some ch) (hne : ch.behaviors ≠ [])
    (hsize : st.history.length ≤ 10000) :
    ((lookupA (recordBehavior now st m).history m.client_id).getD
        emptyClientHistory).first_seen = ch.first_seen := by
  have hgc : ¬ 10000 < st.history.length := by omega
  simp only [recordBehavior, if_neg hgc, hch, Option.getD_some, if_neg hne,
    lookupA_insertA_self]
  split_ifs <;> rfl

/-- Witness for `recordBehavior_first_seen_unchanged`: recording a second
observation leaves `first_seen` at the first observation's timestamp. -/
theorem recordBehavior_first_seen_unchanged_witness :
    lookupA (⟨[("c", ⟨[c8_m1], 1, 1⟩)], 10000⟩ : BehaviorAnalyzerState).history
        (c8_m2.client_id) = some ⟨[c8_m1], 1, 1⟩ ∧
    (⟨[c8_m1], 1, 1⟩ : ClientHistory).behaviors ≠ [] ∧
    (⟨[("c", ⟨[c8_m1], 1, 1⟩)], 10000⟩ : BehaviorAnalyzerState).history.length ≤ 10000 ∧
    ((lookupA (recordBehavior 2 ⟨[("c", ⟨[c8_m1], 1, 1⟩)], 10000⟩ c8_m2).history
        (c8_m2.client_id)).getD emptyClientHistory).first_seen
      = (⟨[c8_m1], 1, 1⟩ : ClientHistory).first_seen :=
  ⟨by decide, by decide, by decide,
    recordBehavior_first_seen_unchanged 2 ⟨[("c", ⟨[c8_m1], 1, 1⟩)], 10000⟩ c8_m2
      ⟨[c8_m1], 1, 1⟩ (by decide) (by decide) (by decide)⟩

/-- Observation with high confidence at a given time, for the clock
dependence scenario. -/
def c9_m (t : Int) : BehaviorMetrics := ⟨"c", "", t, .NORMAL, 0.9, []⟩

/-- A Behavior Store holding four high-confidence observations for `"c"`
at times 0, 1, 2, 3. -/
def c9_st : BehaviorAnalyzerState :=
  recordBehavior 3 (recordBehavior 2 (recordBehavior 1
    (recordBehavior 0 ⟨[], 10000⟩ (c9_m 0)) (c9_m 1)) (c9_m 2)) (c9_m 3)

/-- C9 counterexample: with no intervening `recordBehavior`, two
`analyzeBehavior` calls on the same store return different scores and
different detected-pattern sets when made at different clock times — the
result is not a pure function of the snapshot alone: the rapid-failure
subscore ages observations out of its 60-second window. -/
theorem analyzeBehavior_clock_dependent :
    (analyzeBehavior 1000 c9_st "c").score = 0.2 ∧
    (analyzeBehavior 100000 c9_st "c").score = 0 ∧
    (analyzeBehavior 1000 c9_st "c").detected_patterns
      = [BehaviorPattern.RAPID_FAILURES] ∧
    (analyzeBehavior 100000 c9_st "c").detected_patterns = [] := by
  have h1 : recordBehavior 0 ⟨[], 10000⟩ (c9_m 0)
      = ⟨[("c", ⟨[c9_m 0], 0, 0⟩)], 10000⟩ := by
    norm_num [recordBehavior, c9_m, lookupA, insertA, emptyClientHistory,
      cleanupStaleHistory, List.cons_ne_nil]
  have h2 : recordBehavior 1 ⟨[("c", ⟨[c9_m 0], 0, 0⟩)], 10000⟩ (c9_m 1)
      = ⟨[("c", ⟨[c9_m 0, c9_m 1], 0, 1⟩)], 10000⟩ := by
    norm_num [recordBehavior, c9_m, lookupA, insertA, emptyClientHistory,
      cleanupStaleHistory, List.cons_ne_nil]
  have h3 : recordBehavior 2 ⟨[("c", ⟨[c9_m 0, c9_m 1], 0, 1⟩)], 10000⟩ (c9_m 2)
      = ⟨[("c", ⟨[c9_m 0, c9_m 1, c9_m 2], 0, 2⟩)], 10000⟩ := by
    norm_num [recordBehavior, c9_m, lookupA, insertA, emptyClientHistory,
      cleanupStaleHistory, List.cons_ne_nil]
  have h4 : recordBehavior 3 ⟨[("c", ⟨[c9_m 0, c9_m 1, c9_m 2], 0, 2⟩)], 10000⟩ (c9_m 3)
      = ⟨[("c", ⟨[c9_m 0, c9_m 1, c9_m 2, c9_m 3], 0, 3⟩)], 10000⟩ := by
    norm_num [recordBehavior, c9_m, lookupA, insertA, emptyClientHistory,
      cleanupStaleHistory, List.cons_ne_nil]
  have hst : c9_st = ⟨[("c", ⟨[c9_m 0, c9_m 1, c9_m 2, c9_m 3], 0, 3⟩)], 10000⟩ := by
    rw [c9_st, h1, h2, h3, h4]
  have hnp : BehaviorPattern.NORMAL ≠ BehaviorPattern.PAYLOAD_INJECTION := by decide
  rw [hst]
  norm_num [analyzeBehavior, lookupA, c9_m,
    calculateRapidFailureScore, calculateEnumerationScore, calculatePayloadScore,
    calculateTimingScore, calculateResourceScore, List.takeWhile,
    List.filter_cons, List.filter_nil, List.cons_ne_nil, min_def, hnp]

/-- C9 (amended): `analyzeBehavior` is a pure function of the client's
current history entry and the clock: two calls that agree on the snapshot
and the time return identical results, and the store is never mutated by
analysis; calls at different times may differ. -/
theorem analyzeBehavior_pure (now : Int) (c : String)
    (st1 st2 : BehaviorAnalyzerState)
    (h : lookupA st1.history c = lookupA st2.history c) :
    analyzeBehavior now st1 c = analyzeBehavior now st2 c := by
  unfold analyzeBehavior
  rw [h]

/-- Witness for `analyzeBehavior_pure`: two stores agreeing on client
`"c"`'s entry give identical analysis results. -/
theorem analyzeBehavior_pure_witness :
    lookupA (⟨[("c", emptyClientHistory)], 10000⟩ : BehaviorAnalyzerState).history "c"
      = lookupA (⟨[("d", ⟨[], 5, 5⟩), ("c", emptyClientHistory)], 20⟩ :
          BehaviorAnalyzerState).history "c" ∧
    analyzeBehavior 0 ⟨[("c", emptyClientHistory)], 10000⟩ "c"
      = analyzeBehavior 0 ⟨[("d", ⟨[], 5, 5⟩), ("c", emptyClientHistory)], 20⟩ "c" :=
  ⟨by decide, analyzeBehavior_pure 0 "c" _ _ (by decide)⟩

/-- One rate-limiter trace event: a `checkLimit` call at a clock time, or
an `enforceDynamicLimits` call with a scored anomaly. -/
inductive RLEvent
  | check (now : Int) (client_id : String)
  | enforce (anomaly : AnomalyScore)

/-- Run a trace of rate-limiter calls left to right, collecting each
`checkLimit` verdict. -/
def runRL : RateLimitingPolicyState → List RLEvent → RateLimitingPolicyState × List Bool
  | st, [] => (st, [])
  | st, RLEvent.check now c :: t =>
    let r := checkLimit now st c
    let rest := runRL r.2 t
    (rest.1, r.1 :: rest.2)
  | st, RLEvent.enforce a :: t => runRL (enforceDynamicLimits st a) t

/-- A trace for client `"c"`: a HIGH enforcement (cap 10), then 11
`checkLimit` calls at t = 2000 ms (the first starts a window), a MEDIUM
enforcement (cap 20), and 10 more calls at t = 2500 ms, inside the same
window. -/
def c5_events : List RLEvent :=
  RLEvent.enforce anomalyHigh ::
    (List.replicate 11 (RLEvent.check 2000 "c")
      ++ RLEvent.enforce anomalyMedium :: List.replicate 10 (RLEvent.check 2500 "c"))

/-- A fresh rate limiter with `default_rps = 100`. -/
def c5_st0 : RateLimitingPolicyState := ⟨[], 100⟩

/-- C5 counterexample: the window starting at t = 2000 has cap 10, the
window is never reset during the trace (`last_reset` stays 2000), yet 20
`checkLimit` calls inside it return true, because a mid-window MEDIUM
`enforceDynamicLimits` raised the cap from 10 to 20. -/
theorem checkLimit_window_cap_violated :
    ((lookupA (runRL c5_st0 (c5_events.take 2)).1.policies "c").getD
        defaultClientPolicy).requests_per_second = 10 ∧
    ((lookupA (runRL c5_st0 (c5_events.take 2)).1.policies "c").getD
        defaultClientPolicy).last_reset = 2000 ∧
    ((lookupA (runRL c5_st0 c5_events).1.policies "c").getD
        defaultClientPolicy).last_reset = 2000 ∧
    (runRL c5_st0 c5_events).2.count true = 20 := by
  set_option maxRecDepth 4000 in decide

/-- Induction workhorse for the in-window rate-limit bound, quantified
over the trace, the state and the current counter. -/
theorem checkLimit_window_bound_aux (c : String) (r : Nat) (t0 : Int) (hr : r ≠ 0) :
    ∀ (times : List Int) (st : RateLimitingPolicyState) (k : Nat),
      lookupA st.policies c = some ⟨r, t0, k⟩ →
      (∀ t ∈ times, t0 ≤ t ∧ t < t0 + 1000) →
      (runRL st (times.map (fun t => RLEvent.check t c))).2.count true ≤ r - k := by
  intro times
  induction times with
  | nil =>
    intro st k _ _
    simp [runRL]
  | cons t ts ih =>
    intro st k hpol ht
    obtain ⟨ht1, ht2⟩ := ht t (List.mem_cons_self t ts)
    have hts : ∀ u ∈ ts, t0 ≤ u ∧ u < t0 + 1000 := fun u hu =>
      ht u (List.mem_cons_of_mem t hu)
    have hdiv : ¬ 1 ≤ Int.tdiv (t - t0) 1000 := by
      rw [Int.tdiv_eq_zero_of_lt (by omega) (by omega)]
      omega
    simp only [List.map_cons, runRL, checkLimit, hpol, Option.getD_some,
      if_neg hr, if_neg hdiv]
    by_cases hcase : r ≤ k
    · rw [if_pos hcase]
      have hnext := ih { st with policies := insertA st.policies c ⟨r, t0, k⟩ } k
        (lookupA_insertA_self st.policies c ⟨r, t0, k⟩) hts
      simpa [List.count_cons] using hnext
    · rw [if_neg hcase]
      have hnext := ih { st with policies := insertA st.policies c ⟨r, t0, k + 1⟩ } (k + 1)
        (lookupA_insertA_self st.policies c ⟨r, t0, k + 1⟩) hts
      simp [List.count_cons] at hnext ⊢
      omega

/-- C5 (amended): over a run of `checkLimit` calls alone — no intervening
`enforceDynamicLimits` — whose times all fall inside the 1-second window
that started at `t0`, a client whose policy stands at cap `r` (nonzero)
and counter `k` receives at most `r − k` allowing verdicts; from a window
start (`k = 0`) that is at most the cap as of the window's start. -/
theorem checkLimit_window_bound (c : String) (r k : Nat) (t0 : Int)
    (st : RateLimitingPolicyState) (times : List Int)
    (hpol : lookupA st.policies c = some ⟨r, t0, k⟩)
    (hr : r ≠ 0)
    (ht : ∀ t ∈ times, t0 ≤ t ∧ t < t0 + 1000) :
    (runRL st (times.map (fun t => RLEvent.check t c))).2.count true ≤ r - k :=
  checkLimit_window_bound_aux c r t0 hr times st k hpol ht

/-- Witness for `checkLimit_window_bound`: three in-window calls against a
cap of 2 yield at most 2 allows. -/
theorem checkLimit_window_bound_witness :
    lookupA (⟨[("c", ⟨2, 0, 0⟩)], 100⟩ : RateLimitingPolicyState).policies "c"
      = some ⟨2, 0, 0⟩ ∧
    (2 : Nat) ≠ 0 ∧
    (∀ t ∈ ([0, 1, 500] : List Int), (0 : Int) ≤ t ∧ t < 0 + 1000) ∧
    (runRL ⟨[("c", ⟨2, 0, 0⟩)], 100⟩ (([0, 1, 500] : List Int).map
        (fun t => RLEvent.check t "c"))).2.count true ≤ 2 - 0 :=
  ⟨by decide, by decide, by decide,
    checkLimit_window_bound "c" 2 0 0 ⟨[("c", ⟨2, 0, 0⟩)], 100⟩ [0, 1, 500]
      (by decide) (by decide) (by decide)⟩

end WorkChain.Security
